import Mathlib

/-!
Verification development for the social-graph backend in `src/server.js`.

The server keeps all state in a hierarchical store under `users/<id>`, with
per-user fields `pseudo`, `profile` (bio, avatarUrl, customStatus, visibility
map), `inviteCode`, and the relation maps `friends`, `friendRequestsReceived`,
`friendRequestsSent`, `blockedUsers`, plus `messages` (per-counterpart append
logs) and `gameScores`.  We embed the store as an association list from user id
to record; a boolean child map such as `friends/<other> = true` is embedded as
a list of ids whose membership models child existence.  Each HTTP endpoint
becomes a pure function from the store (and the request parameters) to either
an error — mirroring the endpoint's early-return error responses — or the new
store (and response data).  A multi-path batch write becomes the composed
record updates of its paths.
-/

/-- One stored chat message (`{senderId, message, timestamp}` in the source). -/
structure MessageEntry where
  senderId : String
  message : String
  timestamp : Nat
deriving DecidableEq, Repr

/-- One record under `users/<id>`, flattening `profile` into the record. -/
structure UserRecord where
  pseudo : String
  createdAt : Nat
  bio : String
  avatarUrl : String
  customStatus : String
  visibility : List (String × String)
  inviteCode : String
  friends : List String
  friendRequestsReceived : List String
  friendRequestsSent : List String
  blockedUsers : List String
  messages : List (String × List MessageEntry)
  gameScores : List (String × Int)
deriving DecidableEq, Repr

/-- The whole `users` tree: an association list from id to record. -/
abbrev Store := List (String × UserRecord)

/-- First-match association lookup, modelling a child read at a keyed path. -/
def assocLookup {α : Type} : List (String × α) → String → Option α
  | [], _ => none
  | (k, v) :: rest, key => if k = key then some v else assocLookup rest key

/-- Read of `users/<id>`. -/
def lookupUser (st : Store) (id : String) : Option UserRecord :=
  assocLookup st id

/-- `userExists` from the source: `snapshot.exists()` on `users/<id>`. -/
def userExists (st : Store) (id : String) : Bool :=
  (lookupUser st id).isSome

/-- Field-scoped update of the record stored at `id` (other ids untouched). -/
def updateUser (st : Store) (id : String) (f : UserRecord → UserRecord) : Store :=
  st.map (fun p => if p.1 = id then (p.1, f p.2) else p)

/-- Writing `null` at `users/<id>`: the record disappears. -/
def removeUser : Store → String → Store
  | [], _ => []
  | (k, v) :: rest, id =>
    if k = id then removeUser rest id else (k, v) :: removeUser rest id

/-- Setting a boolean child to `true`: the id becomes a member. -/
def insertId (l : List String) (x : String) : List String :=
  if x ∈ l then l else l ++ [x]

/-- Writing `null` at a boolean child: the id is no longer a member. -/
def removeId : List String → String → List String
  | [], _ => []
  | y :: ys, x => if y = x then removeId ys x else y :: removeId ys x

/-- Read of `users/<id>/friends` (empty when the user or field is absent). -/
def friendsOf (st : Store) (id : String) : List String :=
  match lookupUser st id with
  | none => []
  | some u => u.friends

/-- Read of `users/<id>/friendRequestsSent`. -/
def sentOf (st : Store) (id : String) : List String :=
  match lookupUser st id with
  | none => []
  | some u => u.friendRequestsSent

/-- Read of `users/<id>/friendRequestsReceived`. -/
def receivedOf (st : Store) (id : String) : List String :=
  match lookupUser st id with
  | none => []
  | some u => u.friendRequestsReceived

/-- Read of `users/<id>/blockedUsers`. -/
def blockedOf (st : Store) (id : String) : List String :=
  match lookupUser st id with
  | none => []
  | some u => u.blockedUsers

/-- `getUserPseudo` from the source. -/
def getUserPseudo (st : Store) (id : String) : Option String :=
  (lookupUser st id).map (fun u => u.pseudo)

/-- `getUserVisibility` from the source: reads
`users/<id>/profile/visibility/<infoType>`, defaulting to `"nobody"`. -/
def getUserVisibility (st : Store) (userId infoType : String) : String :=
  match lookupUser st userId with
  | none => "nobody"
  | some u =>
    match assocLookup u.visibility infoType with
    | none => "nobody"
    | some v => v

/-- `areFriends` from the source: existence of `users/<a>/friends/<b>`. -/
def areFriends (st : Store) (a b : String) : Bool :=
  decide (b ∈ friendsOf st a)

/-- The visibility guard used verbatim at both read sites of the source
(`getGameScore` and `getFriendsLeaderboard`):
`visibility === 'everyone' || (visibility === 'friends_only' && isFriend) ||
requesterId === ownerId`, where `isFriend = areFriends(requesterId, ownerId)`
is read from the requester's record. -/
def visibilityAllows (st : Store) (requesterId ownerId infoType : String) : Bool :=
  decide (getUserVisibility st ownerId infoType = "everyone" ∨
    (getUserVisibility st ownerId infoType = "friends_only" ∧
      areFriends st requesterId ownerId = true) ∨
    requesterId = ownerId)

/-- The `defaultProfile.visibility` object of `POST /createUser`, in source
order and with the source's values (`game_scores` is `'everyone'` there). -/
def defaultProfileVisibility : List (String × String) :=
  [("online_status", "everyone"),
   ("last_seen", "friends_only"),
   ("friend_list", "friends_only"),
   ("profile_bio", "everyone"),
   ("shared_projects", "friends_only"),
   ("game_scores", "everyone"),
   ("custom_status", "everyone")]

/-- The record written by `POST /createUser` for a fresh id. -/
def createUserRecord (pseudo inviteCode : String) (createdAt : Nat) : UserRecord :=
  { pseudo := pseudo
    createdAt := createdAt
    bio := "Salut, je suis " ++ pseudo ++ " sur Statistique & Amis !"
    avatarUrl := ""
    customStatus := "En ligne"
    visibility := defaultProfileVisibility
    inviteCode := inviteCode
    friends := []
    friendRequestsReceived := []
    friendRequestsSent := []
    blockedUsers := []
    messages := []
    gameScores := [] }

/-- Errors of `POST /sendFriendRequest`, one per early-return response. -/
inductive SendReqError
  | missingParams
  | selfRequest
  | notFound
  | alreadyFriends
  | alreadySent
  | alreadyReceived
  | blockedByRequester
  | blockedByTarget
deriving DecidableEq, Repr

/-- The HTTP status code the source sends with each `sendFriendRequest`
failure (`sendResponse(res, <code>, false, ...)`). -/
def SendReqError.statusCode : SendReqError → Nat
  | .missingParams => 400
  | .selfRequest => 400
  | .notFound => 404
  | .alreadyFriends => 400
  | .alreadySent => 400
  | .alreadyReceived => 400
  | .blockedByRequester => 403
  | .blockedByTarget => 403

/-- The batch write shared by both request-creation endpoints:
`users/<a>/friendRequestsSent/<b> = true` and
`users/<b>/friendRequestsReceived/<a> = true` in one update call. -/
def applyRequestEdges (st : Store) (a b : String) : Store :=
  updateUser
    (updateUser st a (fun u => { u with friendRequestsSent := insertId u.friendRequestsSent b }))
    b (fun u => { u with friendRequestsReceived := insertId u.friendRequestsReceived a })

/-- `POST /sendFriendRequest`, with the source's check order: missing params,
self request, existence of both ids, already friends, request already sent,
request already received, requester blocked target, target blocked requester;
only when every check passes is the single batch write issued. -/
def sendFriendRequest (st : Store) (userId friendId : String) :
    Except SendReqError Store :=
  if userId = "" ∨ friendId = "" then .error .missingParams
  else if userId = friendId then .error .selfRequest
  else
    match lookupUser st userId, lookupUser st friendId with
    | some userData, some friendData =>
      if friendId ∈ userData.friends then .error .alreadyFriends
      else if friendId ∈ userData.friendRequestsSent then .error .alreadySent
      else if friendId ∈ userData.friendRequestsReceived then .error .alreadyReceived
      else if friendId ∈ userData.blockedUsers then .error .blockedByRequester
      else if userId ∈ friendData.blockedUsers then .error .blockedByTarget
      else .ok (applyRequestEdges st userId friendId)
    | _, _ => .error .notFound

/-- Errors of `POST /sendFriendRequestByCode`. -/
inductive ByCodeError
  | missingParams
  | senderNotFound
  | codeNotFound
  | selfRequest
  | alreadyFriends
  | alreadySent
  | alreadyReceived
deriving DecidableEq, Repr

/-- The `orderByChild('inviteCode').equalTo(code)` index query followed by
`Object.keys(...)[0]`: the first user (in key order) whose invite code
matches. -/
def findByInviteCode : Store → String → Option String
  | [], _ => none
  | (id, u) :: rest, code =>
    if u.inviteCode = code then some id else findByInviteCode rest code

/-- `POST /sendFriendRequestByCode`.  The source resolves the code, rejects a
self-request, and checks only the sender's `friends`, `friendRequestsSent`,
`friendRequestsReceived`; its own comment notes the block checks are omitted
(`Vérifications de blocage omises ici pour simplifier, mais devraient être
faites`), so no `blockedUsers` field is consulted before the batch write. -/
def sendFriendRequestByCode (st : Store) (userId code : String) :
    Except ByCodeError (Store × String) :=
  if userId = "" ∨ code = "" then .error .missingParams
  else
    match lookupUser st userId with
    | none => .error .senderNotFound
    | some senderData =>
      match findByInviteCode st code with
      | none => .error .codeNotFound
      | some friendId =>
        if userId = friendId then .error .selfRequest
        else if friendId ∈ senderData.friends then .error .alreadyFriends
        else if friendId ∈ senderData.friendRequestsSent then .error .alreadySent
        else if friendId ∈ senderData.friendRequestsReceived then .error .alreadyReceived
        else .ok (applyRequestEdges st userId friendId, friendId)

/-- Errors of `POST /acceptFriendRequest`. -/
inductive AcceptError
  | missingParams
  | notFound
deriving DecidableEq, Repr

/-- `POST /acceptFriendRequest` (receiver `userId`, sender `friendId`): after
the existence checks it batch-writes `friends` true on both sides and nulls
`friendRequestsReceived[userId][friendId]` and
`friendRequestsSent[friendId][userId]`; no check that the request exists. -/
def acceptFriendRequest (st : Store) (userId friendId : String) :
    Except AcceptError Store :=
  if userId = "" ∨ friendId = "" then .error .missingParams
  else if userExists st userId && userExists st friendId then
    .ok (updateUser
      (updateUser st userId (fun u =>
        { u with friends := insertId u.friends friendId,
                 friendRequestsReceived := removeId u.friendRequestsReceived friendId }))
      friendId (fun u =>
        { u with friends := insertId u.friends userId,
                 friendRequestsSent := removeId u.friendRequestsSent userId }))
  else .error .notFound

/-- Errors of `POST /deleteUser`. -/
inductive DeleteError
  | missingParam
  | notFound
deriving DecidableEq, Repr

/-- Applies one back-reference-clearing update per id of `ids`. -/
def clearBackRefs (st : Store) (ids : List String) (f : UserRecord → UserRecord) : Store :=
  ids.foldl (fun acc fid => updateUser acc fid f) st

/-- The path write `users/<other>/friends/<userId> = null`. -/
def clearFriendRef (userId : String) (r : UserRecord) : UserRecord :=
  { r with friends := removeId r.friends userId }

/-- The path write `users/<other>/friendRequestsReceived/<userId> = null`. -/
def clearReceivedRef (userId : String) (r : UserRecord) : UserRecord :=
  { r with friendRequestsReceived := removeId r.friendRequestsReceived userId }

/-- The path write `users/<other>/friendRequestsSent/<userId> = null`. -/
def clearSentRef (userId : String) (r : UserRecord) : UserRecord :=
  { r with friendRequestsSent := removeId r.friendRequestsSent userId }

/-- The store after the `deleteUser` batch write for record `u` at `userId`:
every back-reference listed in `u.friends`, `u.friendRequestsSent`,
`u.friendRequestsReceived` is cleared on the other record and `users/<userId>`
is nulled. -/
def deleteUserPost (st : Store) (userId : String) (u : UserRecord) : Store :=
  removeUser
    (clearBackRefs
      (clearBackRefs
        (clearBackRefs st u.friends (clearFriendRef userId))
        u.friendRequestsSent (clearReceivedRef userId))
      u.friendRequestsReceived (clearSentRef userId))
    userId

/-- `POST /deleteUser`: reads the record, then one batch write that nulls
`users/<id>` and, per id listed in its `friends`, `friendRequestsSent`,
`friendRequestsReceived`, the matching back-reference on that other record.
`blockedUsers` entries held by others are deliberately not touched.  The batch
is embedded as the composition of its per-path updates. -/
def deleteUser (st : Store) (userId : String) : Except DeleteError Store :=
  if userId = "" then .error .missingParam
  else
    match lookupUser st userId with
    | none => .error .notFound
    | some u => .ok (deleteUserPost st userId u)

/-- Errors of `GET /getUserDetails/:id`. -/
inductive GetDetailsError
  | missingParam
  | notFound
deriving DecidableEq, Repr

/-- `GET /getUserDetails/:id`: 404 when `users/<id>` is absent, else the id
and pseudo of the record (the profile part is not needed by the claims). -/
def getUserDetails (st : Store) (userId : String) :
    Except GetDetailsError (String × String) :=
  if userId = "" then .error .missingParam
  else
    match lookupUser st userId with
    | none => .error .notFound
    | some u => .ok (userId, u.pseudo)

/-- Errors of `GET /getGameScore/:userId/:gameId`. -/
inductive ScoreError
  | missingParams
  | notFound
  | forbidden
deriving DecidableEq, Repr

/-- Read of `users/<id>/gameScores/<gameId>`. -/
def scoreOf (st : Store) (id gameId : String) : Option Int :=
  match lookupUser st id with
  | none => none
  | some u => assocLookup u.gameScores gameId

/-- `GET /getGameScore/:userId/:gameId` with requester id from the query
string: existence check, then the visibility guard, then
`snapshot.exists() ? snapshot.val() : 0`. -/
def getGameScore (st : Store) (requesterId userId gameId : String) :
    Except ScoreError Int :=
  if userId = "" ∨ gameId = "" then .error .missingParams
  else if userExists st userId then
    if visibilityAllows st requesterId userId "game_scores" then
      .ok ((scoreOf st userId gameId).getD 0)
    else .error .forbidden
  else .error .notFound

/-- One leaderboard row `{id, pseudo, score}`. -/
structure LeaderboardEntry where
  id : String
  pseudo : String
  score : Int
deriving DecidableEq, Repr

/-- Insertion into a list sorted by score descending (ties keep the existing
element first; the source's sort leaves tie order unspecified). -/
def insertDesc (e : LeaderboardEntry) : List LeaderboardEntry → List LeaderboardEntry
  | [] => [e]
  | x :: xs => if e.score ≤ x.score then x :: insertDesc e xs else e :: x :: xs

/-- The `sort((a, b) => b.score - a.score)` of the source: a permutation of
the entries ordered by score descending. -/
def sortByScoreDesc : List LeaderboardEntry → List LeaderboardEntry
  | [] => []
  | x :: xs => insertDesc x (sortByScoreDesc xs)

/-- Deduplication keeping first occurrences, with an accumulator of ids
already seen; models insertion into a JS `Set`. -/
def dedupAux : List String → List String → List String
  | [], _ => []
  | x :: xs, seen =>
    if x ∈ seen then dedupAux xs seen else x :: dedupAux xs (x :: seen)

/-- `Array.from(new Set(list))`: first-occurrence deduplication. -/
def dedupFirst (l : List String) : List String :=
  dedupAux l []

/-- Errors of `GET /getFriendsLeaderboard/:userId/:gameId`. -/
inductive LbError
  | missingParams
  | notFound
deriving DecidableEq, Repr

/-- The per-participant body of the leaderboard loop: the visibility guard,
then inclusion only when `users/<p>/gameScores/<gameId>` exists, with the
pseudo defaulted to `"Inconnu"`. -/
def leaderboardEntryFor (st : Store) (userId gameId p : String) :
    Option LeaderboardEntry :=
  if visibilityAllows st userId p "game_scores" then
    match scoreOf st p gameId with
    | some s => some { id := p, pseudo := (getUserPseudo st p).getD "Inconnu", score := s }
    | none => none
  else none

/-- `GET /getFriendsLeaderboard/:userId/:gameId`: participants are
`new Set([...friends, userId])`, filtered by the guard and score existence,
then sorted by score descending. -/
def getFriendsLeaderboard (st : Store) (userId gameId : String) :
    Except LbError (List LeaderboardEntry) :=
  if userId = "" ∨ gameId = "" then .error .missingParams
  else
    match lookupUser st userId with
    | none => .error .notFound
    | some u =>
      .ok (sortByScoreDesc
        ((dedupFirst (u.friends ++ [userId])).filterMap (leaderboardEntryFor st userId gameId)))

/-- Errors of `GET /getFriendsOfFriendsSuggestions/:userId`. -/
inductive SuggError
  | missingParam
  | notFound
deriving DecidableEq, Repr

/-- Concatenation of the friend lists of the given ids (the union the
suggestion traversal walks). -/
def friendsOfAll (st : Store) : List String → List String
  | [] => []
  | f :: fs => friendsOf st f ++ friendsOfAll st fs

/-- `GET /getFriendsOfFriendsSuggestions/:userId`: every friend-of-friend id
that is neither the user nor a direct friend, deduplicated, resolved to a
pseudo, silently dropping ids whose record no longer resolves. -/
def getFriendsOfFriendsSuggestions (st : Store) (userId : String) :
    Except SuggError (List (String × String)) :=
  if userId = "" then .error .missingParam
  else
    match lookupUser st userId with
    | none => .error .notFound
    | some u =>
      .ok ((dedupFirst ((friendsOfAll st u.friends).filter
            (fun x => decide (x ≠ userId ∧ x ∉ u.friends)))).filterMap
        (fun id => (getUserPseudo st id).map (fun ps => (id, ps))))

/-- Errors of `POST /sendMessage`. -/
inductive MessageError
  | missingParams
  | selfMessage
  | notFound
  | blocked
deriving DecidableEq, Repr

/-- Push of one entry onto `users/<ownerId>/messages/<otherId>`. -/
def assocAppend (m : List (String × List MessageEntry)) (k : String)
    (e : MessageEntry) : List (String × List MessageEntry) :=
  match m with
  | [] => [(k, [e])]
  | (k1, l) :: rest =>
    if k1 = k then (k1, l ++ [e]) :: rest else (k1, l) :: assocAppend rest k e

/-- The `push(messageData)` call on one participant's per-counterpart log. -/
def pushMessage (st : Store) (ownerId otherId : String) (entry : MessageEntry) : Store :=
  updateUser st ownerId (fun u => { u with messages := assocAppend u.messages otherId entry })

/-- Read of `users/<ownerId>/messages/<otherId>` as a list. -/
def messagesBetween (st : Store) (ownerId otherId : String) : List MessageEntry :=
  match lookupUser st ownerId with
  | none => []
  | some u => (assocLookup u.messages otherId).getD []

/-- `POST /sendMessage`: param checks, self check, existence checks, then the
one-directional block check (`users/<receiver>/blockedUsers/<sender>` only),
then the same entry is pushed onto both per-counterpart logs. -/
def sendMessage (st : Store) (senderId receiverId msg : String) (timestamp : Nat) :
    Except MessageError Store :=
  if senderId = "" ∨ receiverId = "" ∨ msg = "" then .error .missingParams
  else if senderId = receiverId then .error .selfMessage
  else if userExists st senderId = false ∨ userExists st receiverId = false then
    .error .notFound
  else if senderId ∈ blockedOf st receiverId then .error .blocked
  else
    .ok (pushMessage
      (pushMessage st senderId receiverId
        { senderId := senderId, message := msg, timestamp := timestamp })
      receiverId senderId
      { senderId := senderId, message := msg, timestamp := timestamp })

/-- A bare user record used to build concrete test stores. -/
def mkUser (pseudo : String) : UserRecord :=
  { pseudo := pseudo
    createdAt := 0
    bio := ""
    avatarUrl := ""
    customStatus := ""
    visibility := []
    inviteCode := ""
    friends := []
    friendRequestsReceived := []
    friendRequestsSent := []
    blockedUsers := []
    messages := []
    gameScores := [] }

/-- Pre-state with two opposite pending requests between `r` and `s` (a state
§5 of the spec admits as reachable through racing `sendRequest` calls). -/
def c1Store : Store :=
  [("r", { mkUser "R" with friendRequestsSent := ["s"], friendRequestsReceived := ["s"] }),
   ("s", { mkUser "S" with friendRequestsSent := ["r"], friendRequestsReceived := ["r"] })]

/-- The store produced by `acceptFriendRequest c1Store "r" "s"`. -/
def c1Post : Store :=
  [("r", { mkUser "R" with friends := ["s"], friendRequestsSent := ["s"], friendRequestsReceived := [] }),
   ("s", { mkUser "S" with friends := ["r"], friendRequestsSent := [], friendRequestsReceived := ["r"] })]

/-- Two users with no edges between them at all. -/
def c1WStore : Store :=
  [("p", mkUser "P"), ("q", mkUser "Q")]

/-- Store in which `b` has blocked `a`. -/
def c2BlockStore : Store :=
  [("a", mkUser "A"), ("b", { mkUser "B" with blockedUsers := ["a"] })]

/-- Store in which `a` and `b` are already friends. -/
def c2FriendStore : Store :=
  [("a", { mkUser "A" with friends := ["b"] }),
   ("b", { mkUser "B" with friends := ["a"] })]

/-- Store in which `bob` holds invite code `CODE1234` and has blocked
`alice`. -/
def c3Store : Store :=
  [("alice", mkUser "Alice"),
   ("bob", { mkUser "Bob" with inviteCode := "CODE1234", blockedUsers := ["alice"] })]

/-- The store produced by `sendFriendRequestByCode c3Store "alice"
"CODE1234"`: the request edges exist despite the block. -/
def c3Post : Store :=
  [("alice", { mkUser "Alice" with friendRequestsSent := ["bob"] }),
   ("bob", { mkUser "Bob" with inviteCode := "CODE1234", blockedUsers := ["alice"], friendRequestsReceived := ["alice"] })]

/-- The record of user `u` in `c4Store`. -/
def c4Rec : UserRecord :=
  { mkUser "U" with friends := ["f1"], friendRequestsSent := ["r1"], friendRequestsReceived := ["s1"] }

/-- Store with a user `u` referenced back by a friend, a request receiver and
a request sender; the friend has also blocked `u`. -/
def c4Store : Store :=
  [("u", c4Rec),
   ("f1", { mkUser "F1" with friends := ["u"], blockedUsers := ["u"] }),
   ("r1", { mkUser "R1" with friendRequestsReceived := ["u"] }),
   ("s1", { mkUser "S1" with friendRequestsSent := ["u"] })]

/-- `owner` with `game_scores` at `friends_only` lists `req` as a friend, but
`req` does not list `owner`. -/
def c5StoreA : Store :=
  [("owner", { mkUser "Owner" with visibility := [("game_scores", "friends_only")], friends := ["req"] }),
   ("req", mkUser "Req")]

/-- `req` lists `owner` as a friend, but `owner` (with `game_scores` at
`friends_only`) does not list `req`. -/
def c5StoreB : Store :=
  [("owner", { mkUser "Owner" with visibility := [("game_scores", "friends_only")] }),
   ("req", { mkUser "Req" with friends := ["owner"] })]

/-- Leaderboard store: `u` (score 3, own scores at `nobody`) with friends `a`
(score 5, visible to everyone) and `b` (score 10, hidden from everyone). -/
def c6Store : Store :=
  [("u", { mkUser "U" with friends := ["a", "b"], visibility := [("game_scores", "nobody")], gameScores := [("g", 3)] }),
   ("a", { mkUser "A" with visibility := [("game_scores", "everyone")], gameScores := [("g", 5)] }),
   ("b", { mkUser "B" with visibility := [("game_scores", "nobody")], gameScores := [("g", 10)] })]

/-- The leaderboard `getFriendsLeaderboard c6Store "u" "g"` returns. -/
def c6Entries : List LeaderboardEntry :=
  [{ id := "a", pseudo := "A", score := 5 },
   { id := "u", pseudo := "U", score := 3 }]

/-- The record of user `u` in `c7Store`. -/
def c7Rec : UserRecord :=
  { mkUser "U" with friends := ["f", "f2"] }

/-- Suggestion store: `u` has friends `f` and `f2`; their friends include `u`
itself, the direct friend `f2`, the stranger `x`, and `ghost` whose record
does not exist. -/
def c7Store : Store :=
  [("u", c7Rec),
   ("f", { mkUser "F" with friends := ["u", "x", "ghost", "f2"] }),
   ("f2", { mkUser "F2" with friends := ["x"] }),
   ("x", mkUser "X")]

/-- Messaging store in which the sender `a` has blocked the receiver `b`
(while `b` has not blocked `a`). -/
def c9Store : Store :=
  [("a", { mkUser "A" with blockedUsers := ["b"] }), ("b", mkUser "B")]

/-- Store with a user whose scores are visible to everyone but who has no
recorded score. -/
def c10Store : Store :=
  [("a", { mkUser "A" with visibility := [("game_scores", "everyone")] })]

/-! ## Store lemmas -/

theorem lookupUser_updateUser (st : Store) (id : String) (f : UserRecord → UserRecord)
    (x : String) :
    lookupUser (updateUser st id f) x =
      if x = id then (lookupUser st id).map f else lookupUser st x := by
  induction st with
  | nil => simp [updateUser, lookupUser, assocLookup]
  | cons p rest ih =>
    obtain ⟨k, v⟩ := p
    have hhead : (if k = id then (k, f v) else (k, v)) = (k, if k = id then f v else v) := by
      split <;> rfl
    simp only [updateUser, List.map_cons, hhead]
    simp only [updateUser, lookupUser, assocLookup] at ih ⊢
    by_cases hk : k = x
    · subst hk
      by_cases hi : k = id
      · subst hi; simp
      · simp [hi, Ne.symm hi]
    · by_cases hi : k = id
      · subst hi
        simp [hk, ih, Ne.symm hk]
      · simp [hk, hi, ih]

theorem lookupUser_removeUser (st : Store) (id x : String) :
    lookupUser (removeUser st id) x = if x = id then none else lookupUser st x := by
  induction st with
  | nil => simp [removeUser, lookupUser, assocLookup]
  | cons p rest ih =>
    obtain ⟨k, v⟩ := p
    simp only [removeUser, lookupUser, assocLookup] at ih ⊢
    by_cases hk : k = id
    · subst hk
      rw [if_pos rfl, ih]
      by_cases hx : x = k
      · simp [hx]
      · have hx2 : ¬ k = x := fun h => hx h.symm
        simp [hx, hx2]
    · rw [if_neg hk]
      by_cases hkx : k = x
      · subst hkx
        have hxid : ¬ k = id := hk
        simp [assocLookup, hxid]
      · simp only [assocLookup, if_neg hkx, ih]

theorem mem_insertId (l : List String) (x y : String) :
    y ∈ insertId l x ↔ y ∈ l ∨ y = x := by
  by_cases h : x ∈ l
  · simp only [insertId, if_pos h]
    constructor
    · exact fun hy => Or.inl hy
    · rintro (hy | rfl)
      · exact hy
      · exact h
  · simp [insertId, if_neg h]

theorem mem_removeId (l : List String) (x y : String) :
    y ∈ removeId l x ↔ y ∈ l ∧ y ≠ x := by
  induction l with
  | nil => simp [removeId]
  | cons a as ih =>
    by_cases ha : a = x <;> simp [removeId, ha, ih] <;> aesop

theorem mem_dedupAux (l : List String) (seen : List String) (y : String) :
    y ∈ dedupAux l seen ↔ y ∈ l ∧ y ∉ seen := by
  induction l generalizing seen with
  | nil => simp [dedupAux]
  | cons a as ih =>
    by_cases ha : a ∈ seen
    · simp only [dedupAux, if_pos ha, ih, List.mem_cons]
      constructor
      · rintro ⟨h1, h2⟩
        exact ⟨Or.inr h1, h2⟩
      · rintro ⟨rfl | h1, h2⟩
        · exact absurd ha h2
        · exact ⟨h1, h2⟩
    · simp only [dedupAux, if_neg ha, List.mem_cons, ih]
      constructor
      · rintro (rfl | ⟨h1, h2⟩)
        · exact ⟨Or.inl rfl, ha⟩
        · exact ⟨Or.inr h1, fun hy => h2 (Or.inr hy)⟩
      · rintro ⟨rfl | h1, h2⟩
        · exact Or.inl rfl
        · by_cases hya : y = a
          · exact Or.inl hya
          · refine Or.inr ⟨h1, fun hy => ?_⟩
            rcases hy with h | h
            · exact hya h
            · exact h2 h

theorem mem_dedupFirst (l : List String) (y : String) :
    y ∈ dedupFirst l ↔ y ∈ l := by
  simp [dedupFirst, mem_dedupAux]

theorem mem_friendsOfAll (st : Store) (l : List String) (y : String) :
    y ∈ friendsOfAll st l ↔ ∃ f ∈ l, y ∈ friendsOf st f := by
  induction l with
  | nil => simp [friendsOfAll]
  | cons a as ih => simp [friendsOfAll, ih]

theorem clearBackRefs_cons (st : Store) (i : String) (ids : List String)
    (f : UserRecord → UserRecord) :
    clearBackRefs st (i :: ids) f = clearBackRefs (updateUser st i f) ids f := rfl

theorem lookupUser_clearBackRefs_not_mem (ids : List String) (st : Store)
    (f : UserRecord → UserRecord) (x : String) (hx : x ∉ ids) :
    lookupUser (clearBackRefs st ids f) x = lookupUser st x := by
  induction ids generalizing st with
  | nil => rfl
  | cons i is ih =>
    rw [clearBackRefs_cons]
    have hxi : x ≠ i := fun h => hx (h ▸ List.mem_cons_self i is)
    have hxis : x ∉ is := fun h => hx (List.mem_cons_of_mem _ h)
    rw [ih _ hxis, lookupUser_updateUser, if_neg hxi]

theorem lookupUser_clearBackRefs_proj {β : Type} (ids : List String) (st : Store)
    (f : UserRecord → UserRecord) (proj : UserRecord → β)
    (hf : ∀ r, proj (f r) = proj r) (x : String) :
    (lookupUser (clearBackRefs st ids f) x).map proj = (lookupUser st x).map proj := by
  induction ids generalizing st with
  | nil => rfl
  | cons i is ih =>
    rw [clearBackRefs_cons, ih]
    rw [lookupUser_updateUser]
    by_cases hxi : x = i
    · rw [if_pos hxi, hxi]
      cases lookupUser st i with
      | none => rfl
      | some r => simp [hf]
    · rw [if_neg hxi]

theorem lookupUser_clearBackRefs_mem_prop (ids : List String) (st : Store)
    (f : UserRecord → UserRecord) (Q : UserRecord → Prop)
    (hQ : ∀ r, Q (f r)) (x : String) (hx : x ∈ ids) :
    ∀ r, lookupUser (clearBackRefs st ids f) x = some r → Q r := by
  induction ids generalizing st with
  | nil => exact absurd hx (List.not_mem_nil x)
  | cons i is ih =>
    intro r hr
    rw [clearBackRefs_cons] at hr
    by_cases hxis : x ∈ is
    · exact ih _ hxis r hr
    · have hxi : x = i := by
        rcases List.mem_cons.mp hx with h | h
        · exact h
        · exact absurd h hxis
      rw [lookupUser_clearBackRefs_not_mem _ _ _ _ hxis, lookupUser_updateUser,
        if_pos hxi] at hr
      cases hu : lookupUser st i with
      | none => rw [hu] at hr; exact absurd hr (by simp)
      | some u =>
        rw [hu] at hr
        have : f u = r := by simpa using hr
        exact this ▸ hQ u

theorem mem_insertDesc (e x : LeaderboardEntry) (l : List LeaderboardEntry) :
    x ∈ insertDesc e l ↔ x = e ∨ x ∈ l := by
  induction l with
  | nil => simp [insertDesc]
  | cons a as ih =>
    by_cases h : e.score ≤ a.score
    · simp only [insertDesc, if_pos h, List.mem_cons, ih]
      try tauto
    · simp only [insertDesc, if_neg h, List.mem_cons]
      try tauto

theorem pairwise_insertDesc (e : LeaderboardEntry) (l : List LeaderboardEntry)
    (hl : l.Pairwise (fun a b => b.score ≤ a.score)) :
    (insertDesc e l).Pairwise (fun a b => b.score ≤ a.score) := by
  induction l with
  | nil => simp [insertDesc]
  | cons a as ih =>
    rcases List.pairwise_cons.mp hl with ⟨ha, has⟩
    by_cases h : e.score ≤ a.score
    · rw [insertDesc, if_pos h]
      refine List.pairwise_cons.mpr ⟨?_, ih has⟩
      intro b hb
      rcases (mem_insertDesc e b as).mp hb with rfl | hb
      · exact h
      · exact ha b hb
    · rw [insertDesc, if_neg h]
      refine List.pairwise_cons.mpr ⟨?_, hl⟩
      intro b hb
      rcases List.mem_cons.mp hb with rfl | hb
      · exact le_of_lt (lt_of_not_le h)
      · exact le_trans (ha b hb) (le_of_lt (lt_of_not_le h))

theorem pairwise_sortByScoreDesc (l : List LeaderboardEntry) :
    (sortByScoreDesc l).Pairwise (fun a b => b.score ≤ a.score) := by
  induction l with
  | nil => simp [sortByScoreDesc]
  | cons a as ih => exact pairwise_insertDesc a (sortByScoreDesc as) ih

theorem mem_sortByScoreDesc (x : LeaderboardEntry) (l : List LeaderboardEntry) :
    x ∈ sortByScoreDesc l ↔ x ∈ l := by
  induction l with
  | nil => simp [sortByScoreDesc]
  | cons a as ih =>
    simp only [sortByScoreDesc, mem_insertDesc, ih, List.mem_cons]

theorem assocLookup_assocAppend_self (m : List (String × List MessageEntry))
    (k : String) (e : MessageEntry) :
    assocLookup (assocAppend m k e) k = some ((assocLookup m k).getD [] ++ [e]) := by
  induction m with
  | nil => simp [assocAppend, assocLookup]
  | cons p rest ih =>
    obtain ⟨k1, l⟩ := p
    by_cases h : k1 = k
    · subst h
      simp [assocAppend, assocLookup]
    · simp [assocAppend, if_neg h, assocLookup, ih]

/-! ## Claim theorems -/

/-- C8 counterexample: the record created by `createUser` has
`game_scores = everyone` (the source even carries a comment saying it was
changed to `everyone`), not `friends_only` as the claim states. -/
theorem createUser_game_scores_cex :
    assocLookup (createUserRecord "Ada" "ABCD1234" 0).visibility "game_scores" =
      some "everyone" ∧
    some ("everyone" : String) ≠ some ("friends_only" : String) := by
  exact ⟨rfl, by decide⟩

/-- C8 (amended): a record created by `createUser` has default visibility
`friend_list`, `shared_projects`, `last_seen` at `friends_only`, and
`game_scores`, `online_status`, `profile_bio`, `custom_status` at
`everyone`. -/
theorem createUser_default_visibility (pseudo code : String) (t : Nat) :
    assocLookup (createUserRecord pseudo code t).visibility "friend_list" = some "friends_only" ∧
    assocLookup (createUserRecord pseudo code t).visibility "shared_projects" = some "friends_only" ∧
    assocLookup (createUserRecord pseudo code t).visibility "last_seen" = some "friends_only" ∧
    assocLookup (createUserRecord pseudo code t).visibility "game_scores" = some "everyone" ∧
    assocLookup (createUserRecord pseudo code t).visibility "online_status" = some "everyone" ∧
    assocLookup (createUserRecord pseudo code t).visibility "profile_bio" = some "everyone" ∧
    assocLookup (createUserRecord pseudo code t).visibility "custom_status" = some "everyone" :=
  ⟨rfl, rfl, rfl, rfl, rfl, rfl, rfl⟩

/-- C1 counterexample: from a pre-state in which both opposite requests are
pending (reachable per §5 of the spec through racing sends), a successful
`acceptFriendRequest r s` leaves `friendRequestsSent[r][s]` set while making
them friends, so invariant 3 does not hold for the pair afterwards. -/
theorem acceptFriendRequest_inv3_cex :
    acceptFriendRequest c1Store "r" "s" = .ok c1Post ∧
    "s" ∈ friendsOf c1Post "r" ∧ "s" ∈ sentOf c1Post "r" := by
  refine ⟨rfl, ?_, ?_⟩ <;> decide

/-- C2 counterexample: when the target has blocked the requester,
`sendFriendRequest` fails with HTTP status 403 — the status the interface
table reserves for block denial (Forbidden) — while the already-friends,
already-sent and already-received failures the claim groups with it under
`Conflict` are sent with status 400, so the blocked case is not a `Conflict`
failure as the claim states. -/
theorem sendFriendRequest_blocked_status_cex :
    sendFriendRequest c2BlockStore "a" "b" = .error .blockedByTarget ∧
    SendReqError.statusCode .blockedByTarget = 403 ∧
    sendFriendRequest c2FriendStore "a" "b" = .error .alreadyFriends ∧
    SendReqError.statusCode .alreadyFriends = 400 ∧
    SendReqError.statusCode .blockedByTarget ≠ SendReqError.statusCode .alreadyFriends := by
  refine ⟨rfl, rfl, rfl, rfl, ?_⟩
  decide

/-- C3 (code bug witnessed): although `bob` has blocked `alice`,
`sendFriendRequestByCode c3Store "alice" "CODE1234"` succeeds and writes both
request edges — the endpoint consults no `blockedUsers` field, even though
its own comment says the block checks should be done and invariant 4 of the
spec forbids creating the request. -/
theorem sendFriendRequestByCode_ignores_block :
    "alice" ∈ blockedOf c3Store "bob" ∧
    sendFriendRequestByCode c3Store "alice" "CODE1234" = .ok (c3Post, "bob") ∧
    "bob" ∈ sentOf c3Post "alice" ∧
    "alice" ∈ receivedOf c3Post "bob" := by
  refine ⟨?_, rfl, ?_, ?_⟩ <;> decide

/-- C5 counterexample: with `game_scores` at `friends_only`, the source
allows exactly when the requester's record lists the owner, not when the
owner's record lists the requester: in `c5StoreA` the owner-side edge
`friends[owner][req]` holds yet access is denied, and in `c5StoreB` the
owner-side edge is absent yet access is allowed. -/
theorem visibilityAllows_direction_cex :
    getUserVisibility c5StoreA "owner" "game_scores" = "friends_only" ∧
    areFriends c5StoreA "owner" "req" = true ∧
    visibilityAllows c5StoreA "req" "owner" "game_scores" = false ∧
    getUserVisibility c5StoreB "owner" "game_scores" = "friends_only" ∧
    areFriends c5StoreB "owner" "req" = false ∧
    visibilityAllows c5StoreB "req" "owner" "game_scores" = true := by
  refine ⟨rfl, ?_, ?_, rfl, ?_, ?_⟩ <;> decide

/-- C5 (amended): visibility resolution of a field category of an owner with
respect to a requester: the owner itself is always allowed; otherwise the
stored level is looked up, defaulting to `nobody` when the owner record or
the entry is absent; `everyone` allows, `nobody` denies, and `friends_only`
allows exactly when `friends[requesterId][ownerId]` holds — the friendship
edge is read from the requester's record, not the owner's. -/
theorem visibilityAllows_resolution (st : Store) (req own cat : String) :
    (req = own → visibilityAllows st req own cat = true) ∧
    (req ≠ own →
      (visibilityAllows st req own cat = true ↔
        getUserVisibility st own cat = "everyone" ∨
          (getUserVisibility st own cat = "friends_only" ∧ own ∈ friendsOf st req))) ∧
    (lookupUser st own = none → getUserVisibility st own cat = "nobody") ∧
    (∀ u, lookupUser st own = some u → assocLookup u.visibility cat = none →
      getUserVisibility st own cat = "nobody") ∧
    (getUserVisibility st own cat = "nobody" → req ≠ own →
      visibilityAllows st req own cat = false) := by
  refine ⟨?_, ?_, ?_, ?_, ?_⟩
  · intro h
    simp [visibilityAllows, h]
  · intro h
    simp [visibilityAllows, areFriends, h]
  · intro h
    simp [getUserVisibility, h]
  · intro u hu hnone
    simp [getUserVisibility, hu, hnone]
  · intro h hne
    simp [visibilityAllows, h, hne]

/-- C5 witness: the resolution theorem evaluated on the concrete store
`c5StoreA` with requester `req` and owner `owner`. -/
theorem visibilityAllows_resolution_witness :
    (("req" : String) = "owner" → visibilityAllows c5StoreA "req" "owner" "game_scores" = true) ∧
    (("req" : String) ≠ "owner" →
      (visibilityAllows c5StoreA "req" "owner" "game_scores" = true ↔
        getUserVisibility c5StoreA "owner" "game_scores" = "everyone" ∨
          (getUserVisibility c5StoreA "owner" "game_scores" = "friends_only" ∧
            "owner" ∈ friendsOf c5StoreA "req"))) ∧
    (lookupUser c5StoreA "owner" = none →
      getUserVisibility c5StoreA "owner" "game_scores" = "nobody") ∧
    (∀ u, lookupUser c5StoreA "owner" = some u →
      assocLookup u.visibility "game_scores" = none →
      getUserVisibility c5StoreA "owner" "game_scores" = "nobody") ∧
    (getUserVisibility c5StoreA "owner" "game_scores" = "nobody" →
      ("req" : String) ≠ "owner" →
      visibilityAllows c5StoreA "req" "owner" "game_scores" = false) :=
  visibilityAllows_resolution c5StoreA "req" "owner" "game_scores"

/-- C10 (confirmed): for an existing user whose visibility check grants the
requester access but who has no recorded score for the game, `getGameScore`
succeeds with score 0. -/
theorem getGameScore_missing_score_zero (st : Store) (req uid gid : String)
    (hu : uid ≠ "") (hg : gid ≠ "")
    (hue : userExists st uid = true)
    (hv : visibilityAllows st req uid "game_scores" = true)
    (hs : scoreOf st uid gid = none) :
    getGameScore st req uid gid = .ok 0 := by
  simp [getGameScore, hu, hg, hue, hv, hs]

/-- C10 witness: `getGameScore` on `c10Store`, requester `q`, owner `a`,
game `g` with no recorded score, returns score 0. -/
theorem getGameScore_missing_score_zero_witness :
    (("a" : String) ≠ "" ∧ ("g" : String) ≠ "" ∧ userExists c10Store "a" = true ∧
      visibilityAllows c10Store "q" "a" "game_scores" = true ∧
      scoreOf c10Store "a" "g" = none) ∧
    getGameScore c10Store "q" "a" "g" = .ok 0 :=
  ⟨⟨by decide, by decide, by decide, by decide, by decide⟩,
    getGameScore_missing_score_zero c10Store "q" "a" "g"
      (by decide) (by decide) (by decide) (by decide) (by decide)⟩

/-- C1 (amended): for existing users `r` and `s`, `acceptFriendRequest r s`
always succeeds with one batch write — even when no prior request existed —
after which `friends[r][s]` and `friends[s][r]` hold and
`friendRequestsReceived[r][s]` and `friendRequestsSent[s][r]` are cleared;
invariant 1 therefore holds for the pair, and invariants 2 and 3 hold for
the pair provided the reverse-direction request edges
(`friendRequestsSent[r][s]`, `friendRequestsReceived[s][r]`) were clear
before the call. -/
theorem acceptFriendRequest_pair_state (st : Store) (r s : String)
    (hr : r ≠ "") (hs : s ≠ "")
    (hre : userExists st r = true) (hse : userExists st s = true)
    (hrev1 : s ∉ sentOf st r) (hrev2 : r ∉ receivedOf st s) :
    ∃ st', acceptFriendRequest st r s = .ok st' ∧
      s ∈ friendsOf st' r ∧ r ∈ friendsOf st' s ∧
      s ∉ receivedOf st' r ∧ r ∉ sentOf st' s ∧
      s ∉ sentOf st' r ∧ r ∉ receivedOf st' s := by
  obtain ⟨u, hu⟩ := Option.isSome_iff_exists.mp (by simpa [userExists] using hre)
  obtain ⟨v, hv⟩ := Option.isSome_iff_exists.mp (by simpa [userExists] using hse)
  simp only [sentOf, hu] at hrev1
  simp only [receivedOf, hv] at hrev2
  by_cases hrs : r = s
  · subst hrs
    refine ⟨_, by simp only [acceptFriendRequest, hr, hre]; rfl, ?_, ?_, ?_, ?_, ?_, ?_⟩ <;>
      simp [friendsOf, sentOf, receivedOf, lookupUser_updateUser, hu,
        mem_insertId, mem_removeId]
  · refine ⟨_, by simp only [acceptFriendRequest, hr, hs, hre, hse]; rfl, ?_, ?_, ?_, ?_, ?_, ?_⟩ <;>
      simp [friendsOf, sentOf, receivedOf, lookupUser_updateUser, hrs, Ne.symm hrs,
        hu, hv, mem_insertId, mem_removeId, hrev1, hrev2]

/-- C1 witness: accepting between `p` and `q` in `c1WStore`, where no request
of any direction exists, still succeeds and produces the stated pair state. -/
theorem acceptFriendRequest_pair_state_witness :
    (("p" : String) ≠ "" ∧ ("q" : String) ≠ "" ∧ userExists c1WStore "p" = true ∧
      userExists c1WStore "q" = true ∧ "q" ∉ sentOf c1WStore "p" ∧
      "p" ∉ receivedOf c1WStore "q") ∧
    (∃ st', acceptFriendRequest c1WStore "p" "q" = .ok st' ∧
      "q" ∈ friendsOf st' "p" ∧ "p" ∈ friendsOf st' "q" ∧
      "q" ∉ receivedOf st' "p" ∧ "p" ∉ sentOf st' "q" ∧
      "q" ∉ sentOf st' "p" ∧ "p" ∉ receivedOf st' "q") :=
  ⟨⟨by decide, by decide, by decide, by decide, by decide, by decide⟩,
    acceptFriendRequest_pair_state c1WStore "p" "q" (by decide) (by decide)
      (by decide) (by decide) (by decide) (by decide)⟩

/-- C9 (confirmed): for existing distinct users and a nonempty message,
`sendMessage` fails with the block error exactly when the receiver has
blocked the sender — the sender's own block of the receiver is not checked —
and on success the same entry is appended to both per-counterpart logs. -/
theorem sendMessage_block_spec (st : Store) (a b msg : String) (t : Nat)
    (ha : a ≠ "") (hb : b ≠ "") (hm : msg ≠ "") (hab : a ≠ b)
    (hae : userExists st a = true) (hbe : userExists st b = true) :
    (a ∈ blockedOf st b → sendMessage st a b msg t = .error .blocked) ∧
    (a ∉ blockedOf st b → ∃ st', sendMessage st a b msg t = .ok st' ∧
      messagesBetween st' a b = messagesBetween st a b ++
        [{ senderId := a, message := msg, timestamp := t }] ∧
      messagesBetween st' b a = messagesBetween st b a ++
        [{ senderId := a, message := msg, timestamp := t }]) := by
  obtain ⟨u, hu⟩ := Option.isSome_iff_exists.mp (by simpa [userExists] using hae)
  obtain ⟨v, hv⟩ := Option.isSome_iff_exists.mp (by simpa [userExists] using hbe)
  constructor
  · intro hblk
    simp [sendMessage, ha, hb, hm, hab, hae, hbe, hblk]
  · intro hnb
    refine ⟨_, by simp only [sendMessage, ha, hb, hm, hab, hae, hbe, hnb]; rfl, ?_, ?_⟩
    · simp [messagesBetween, pushMessage, lookupUser_updateUser, hab, Ne.symm hab,
        hu, assocLookup_assocAppend_self]
    · simp [messagesBetween, pushMessage, lookupUser_updateUser, hab, Ne.symm hab,
        hv, assocLookup_assocAppend_self]

/-- C9 witness: in `c9Store` the sender `a` has blocked the receiver `b`,
yet sending from `a` to `b` succeeds and appends to both logs, because only
the receiver's block of the sender is consulted. -/
theorem sendMessage_block_spec_witness :
    (("a" : String) ≠ "" ∧ ("b" : String) ≠ "" ∧ ("hello" : String) ≠ "" ∧
      ("a" : String) ≠ "b" ∧ userExists c9Store "a" = true ∧
      userExists c9Store "b" = true ∧ "b" ∈ blockedOf c9Store "a") ∧
    (("a" ∈ blockedOf c9Store "b" → sendMessage c9Store "a" "b" "hello" 7 = .error .blocked) ∧
      ("a" ∉ blockedOf c9Store "b" →
        ∃ st', sendMessage c9Store "a" "b" "hello" 7 = .ok st' ∧
          messagesBetween st' "a" "b" = messagesBetween c9Store "a" "b" ++
            [{ senderId := "a", message := "hello", timestamp := 7 }] ∧
          messagesBetween st' "b" "a" = messagesBetween c9Store "b" "a" ++
            [{ senderId := "a", message := "hello", timestamp := 7 }])) :=
  ⟨⟨by decide, by decide, by decide, by decide, by decide, by decide, by decide⟩,
    sendMessage_block_spec c9Store "a" "b" "hello" 7 (by decide) (by decide)
      (by decide) (by decide) (by decide) (by decide)⟩

/-- C2 (amended): `sendFriendRequest` fails with `InvalidArgument` (400) on a
self-request, `NotFound` (404) when either id is absent, a conflict failure
(400) when already friends, a request was already sent, or a request was
already received, and a forbidden failure (403) — not the same class as the
conflict failures — when either side has blocked the other; every check runs
before any write, and only when all pass is the single batch write issued
that sets `friendRequestsSent[from][to]` and
`friendRequestsReceived[to][from]`. -/
theorem sendFriendRequest_cases (st : Store) (a b : String)
    (ha : a ≠ "") (hb : b ≠ "") :
    (a = b → sendFriendRequest st a b = .error .selfRequest ∧
      SendReqError.statusCode .selfRequest = 400) ∧
    (a ≠ b → (userExists st a = false ∨ userExists st b = false) →
      sendFriendRequest st a b = .error .notFound ∧
      SendReqError.statusCode .notFound = 404) ∧
    (∀ u v, a ≠ b → lookupUser st a = some u → lookupUser st b = some v →
      (b ∈ u.friends → sendFriendRequest st a b = .error .alreadyFriends ∧
        SendReqError.statusCode .alreadyFriends = 400) ∧
      (b ∉ u.friends → b ∈ u.friendRequestsSent →
        sendFriendRequest st a b = .error .alreadySent ∧
        SendReqError.statusCode .alreadySent = 400) ∧
      (b ∉ u.friends → b ∉ u.friendRequestsSent → b ∈ u.friendRequestsReceived →
        sendFriendRequest st a b = .error .alreadyReceived ∧
        SendReqError.statusCode .alreadyReceived = 400) ∧
      (b ∉ u.friends → b ∉ u.friendRequestsSent → b ∉ u.friendRequestsReceived →
        b ∈ u.blockedUsers →
        sendFriendRequest st a b = .error .blockedByRequester ∧
        SendReqError.statusCode .blockedByRequester = 403) ∧
      (b ∉ u.friends → b ∉ u.friendRequestsSent → b ∉ u.friendRequestsReceived →
        b ∉ u.blockedUsers → a ∈ v.blockedUsers →
        sendFriendRequest st a b = .error .blockedByTarget ∧
        SendReqError.statusCode .blockedByTarget = 403) ∧
      (b ∉ u.friends → b ∉ u.friendRequestsSent → b ∉ u.friendRequestsReceived →
        b ∉ u.blockedUsers → a ∉ v.blockedUsers →
        sendFriendRequest st a b = .ok (applyRequestEdges st a b) ∧
        b ∈ sentOf (applyRequestEdges st a b) a ∧
        a ∈ receivedOf (applyRequestEdges st a b) b)) := by
  refine ⟨?_, ?_, ?_⟩
  · intro h
    exact ⟨by simp [sendFriendRequest, ha, hb, h], rfl⟩
  · intro hab hne
    refine ⟨?_, rfl⟩
    rcases hne with h | h
    · have h0 : lookupUser st a = none := by
        simpa [userExists, Option.isSome_iff_exists] using h
      cases hbl : lookupUser st b <;> simp [sendFriendRequest, ha, hb, hab, h0, hbl]
    · have h0 : lookupUser st b = none := by
        simpa [userExists, Option.isSome_iff_exists] using h
      cases hal : lookupUser st a <;> simp [sendFriendRequest, ha, hb, hab, hal, h0]
  · intro u v hab hu hv
    refine ⟨?_, ?_, ?_, ?_, ?_, ?_⟩
    · intro h1
      exact ⟨by simp [sendFriendRequest, ha, hb, hab, hu, hv, h1], rfl⟩
    · intro h1 h2
      exact ⟨by simp [sendFriendRequest, ha, hb, hab, hu, hv, h1, h2], rfl⟩
    · intro h1 h2 h3
      exact ⟨by simp [sendFriendRequest, ha, hb, hab, hu, hv, h1, h2, h3], rfl⟩
    · intro h1 h2 h3 h4
      exact ⟨by simp [sendFriendRequest, ha, hb, hab, hu, hv, h1, h2, h3, h4], rfl⟩
    · intro h1 h2 h3 h4 h5
      exact ⟨by simp [sendFriendRequest, ha, hb, hab, hu, hv, h1, h2, h3, h4, h5], rfl⟩
    · intro h1 h2 h3 h4 h5
      refine ⟨by simp [sendFriendRequest, ha, hb, hab, hu, hv, h1, h2, h3, h4, h5], ?_, ?_⟩
      · simp [sentOf, applyRequestEdges, lookupUser_updateUser, hab, Ne.symm hab, hu,
          mem_insertId]
      · simp [receivedOf, applyRequestEdges, lookupUser_updateUser, hab, Ne.symm hab, hv,
          mem_insertId]

/-- C2 witness: the case-analysis theorem evaluated on `c2BlockStore` for the
pair `a`, `b`. -/
theorem sendFriendRequest_cases_witness :
    (("a" : String) ≠ "" ∧ ("b" : String) ≠ "") ∧
    ((("a" : String) = "b" → sendFriendRequest c2BlockStore "a" "b" = .error .selfRequest ∧
      SendReqError.statusCode .selfRequest = 400) ∧
    (("a" : String) ≠ "b" →
      (userExists c2BlockStore "a" = false ∨ userExists c2BlockStore "b" = false) →
      sendFriendRequest c2BlockStore "a" "b" = .error .notFound ∧
      SendReqError.statusCode .notFound = 404) ∧
    (∀ u v, ("a" : String) ≠ "b" → lookupUser c2BlockStore "a" = some u →
      lookupUser c2BlockStore "b" = some v →
      ("b" ∈ u.friends → sendFriendRequest c2BlockStore "a" "b" = .error .alreadyFriends ∧
        SendReqError.statusCode .alreadyFriends = 400) ∧
      ("b" ∉ u.friends → "b" ∈ u.friendRequestsSent →
        sendFriendRequest c2BlockStore "a" "b" = .error .alreadySent ∧
        SendReqError.statusCode .alreadySent = 400) ∧
      ("b" ∉ u.friends → "b" ∉ u.friendRequestsSent → "b" ∈ u.friendRequestsReceived →
        sendFriendRequest c2BlockStore "a" "b" = .error .alreadyReceived ∧
        SendReqError.statusCode .alreadyReceived = 400) ∧
      ("b" ∉ u.friends → "b" ∉ u.friendRequestsSent → "b" ∉ u.friendRequestsReceived →
        "b" ∈ u.blockedUsers →
        sendFriendRequest c2BlockStore "a" "b" = .error .blockedByRequester ∧
        SendReqError.statusCode .blockedByRequester = 403) ∧
      ("b" ∉ u.friends → "b" ∉ u.friendRequestsSent → "b" ∉ u.friendRequestsReceived →
        "b" ∉ u.blockedUsers → "a" ∈ v.blockedUsers →
        sendFriendRequest c2BlockStore "a" "b" = .error .blockedByTarget ∧
        SendReqError.statusCode .blockedByTarget = 403) ∧
      ("b" ∉ u.friends → "b" ∉ u.friendRequestsSent → "b" ∉ u.friendRequestsReceived →
        "b" ∉ u.blockedUsers → "a" ∉ v.blockedUsers →
        sendFriendRequest c2BlockStore "a" "b" = .ok (applyRequestEdges c2BlockStore "a" "b") ∧
        "b" ∈ sentOf (applyRequestEdges c2BlockStore "a" "b") "a" ∧
        "a" ∈ receivedOf (applyRequestEdges c2BlockStore "a" "b") "b"))) :=
  ⟨⟨by decide, by decide⟩, sendFriendRequest_cases c2BlockStore "a" "b" (by decide) (by decide)⟩

/-- C4 (confirmed): deleting an existing user issues one batch write after
which the user record is gone (`getUserDetails` answers not-found), every
other record listed in the deleted record's `friends`, `friendRequestsSent`,
`friendRequestsReceived` maps no longer carries the corresponding
back-reference to the deleted id, and the `blockedUsers` maps of all other
records are unchanged. -/
theorem deleteUser_cleanup (st : Store) (userId : String) (u : UserRecord)
    (h0 : userId ≠ "") (hu : lookupUser st userId = some u) :
    ∃ st', deleteUser st userId = .ok st' ∧
      lookupUser st' userId = none ∧
      getUserDetails st' userId = .error .notFound ∧
      (∀ other, other ≠ userId → other ∈ u.friends →
        ∀ r, lookupUser st' other = some r → userId ∉ r.friends) ∧
      (∀ other, other ≠ userId → other ∈ u.friendRequestsSent →
        ∀ r, lookupUser st' other = some r → userId ∉ r.friendRequestsReceived) ∧
      (∀ other, other ≠ userId → other ∈ u.friendRequestsReceived →
        ∀ r, lookupUser st' other = some r → userId ∉ r.friendRequestsSent) ∧
      (∀ other, other ≠ userId →
        (lookupUser st' other).map (fun r => r.blockedUsers) =
          (lookupUser st other).map (fun r => r.blockedUsers)) := by
  refine ⟨deleteUserPost st userId u, by simp [deleteUser, h0, hu], ?_, ?_, ?_, ?_, ?_, ?_⟩
  · simp only [deleteUserPost]
    rw [lookupUser_removeUser]
    simp
  · simp only [deleteUserPost]
    simp [getUserDetails, h0, lookupUser_removeUser]
  · intro other hne hmem r hr
    simp only [deleteUserPost] at hr
    rw [lookupUser_removeUser, if_neg hne] at hr
    set sA := clearBackRefs st u.friends (clearFriendRef userId) with hsA
    set sB := clearBackRefs sA u.friendRequestsSent (clearReceivedRef userId) with hsB
    have hAC : (lookupUser (clearBackRefs sB u.friendRequestsReceived (clearSentRef userId))
          other).map (fun x => x.friends)
        = (lookupUser sA other).map (fun x => x.friends) := by
      rw [lookupUser_clearBackRefs_proj _ _ (clearSentRef userId) (fun x => x.friends) (fun r => rfl), hsB,
        lookupUser_clearBackRefs_proj _ _ (clearReceivedRef userId) (fun x => x.friends) (fun r => rfl)]
    rw [hr] at hAC
    cases hA : lookupUser sA other with
    | none => rw [hA] at hAC; simp at hAC
    | some rA =>
      rw [hA] at hAC
      have hfr : r.friends = rA.friends := by simpa using hAC
      have hQ : userId ∉ rA.friends :=
        lookupUser_clearBackRefs_mem_prop u.friends st (clearFriendRef userId)
          (fun x => userId ∉ x.friends)
          (fun x => by simp [clearFriendRef, mem_removeId]) other hmem rA hA
      rw [hfr]
      exact hQ
  · intro other hne hmem r hr
    simp only [deleteUserPost] at hr
    rw [lookupUser_removeUser, if_neg hne] at hr
    set sA := clearBackRefs st u.friends (clearFriendRef userId) with hsA
    set sB := clearBackRefs sA u.friendRequestsSent (clearReceivedRef userId) with hsB
    have hAC : (lookupUser (clearBackRefs sB u.friendRequestsReceived (clearSentRef userId))
          other).map (fun x => x.friendRequestsReceived)
        = (lookupUser sB other).map (fun x => x.friendRequestsReceived) :=
      lookupUser_clearBackRefs_proj _ _ (clearSentRef userId) (fun x => x.friendRequestsReceived) (fun r => rfl) other
    rw [hr] at hAC
    cases hB : lookupUser sB other with
    | none => rw [hB] at hAC; simp at hAC
    | some rB =>
      rw [hB] at hAC
      have hfr : r.friendRequestsReceived = rB.friendRequestsReceived := by simpa using hAC
      have hQ : userId ∉ rB.friendRequestsReceived :=
        lookupUser_clearBackRefs_mem_prop u.friendRequestsSent sA (clearReceivedRef userId)
          (fun x => userId ∉ x.friendRequestsReceived)
          (fun x => by simp [clearReceivedRef, mem_removeId]) other hmem rB hB
      rw [hfr]
      exact hQ
  · intro other hne hmem r hr
    simp only [deleteUserPost] at hr
    rw [lookupUser_removeUser, if_neg hne] at hr
    exact lookupUser_clearBackRefs_mem_prop u.friendRequestsReceived _ (clearSentRef userId)
      (fun x => userId ∉ x.friendRequestsSent)
      (fun x => by simp [clearSentRef, mem_removeId]) other hmem r hr
  · intro other hne
    simp only [deleteUserPost]
    rw [lookupUser_removeUser, if_neg hne,
      lookupUser_clearBackRefs_proj _ _ (clearSentRef userId) (fun r => r.blockedUsers) (fun r => rfl),
      lookupUser_clearBackRefs_proj _ _ (clearReceivedRef userId) (fun r => r.blockedUsers) (fun r => rfl),
      lookupUser_clearBackRefs_proj _ _ (clearFriendRef userId) (fun r => r.blockedUsers) (fun r => rfl)]

/-- C4 witness: deleting `u` from `c4Store` clears the back-references held
by `f1`, `r1`, `s1`, leaves `blockedUsers` maps (including the block `f1`
holds against `u`) untouched, and makes `getUserDetails` answer
not-found. -/
theorem deleteUser_cleanup_witness :
    (("u" : String) ≠ "" ∧ lookupUser c4Store "u" = some c4Rec) ∧
    (∃ st', deleteUser c4Store "u" = .ok st' ∧
      lookupUser st' "u" = none ∧
      getUserDetails st' "u" = .error .notFound ∧
      (∀ other, other ≠ "u" → other ∈ c4Rec.friends →
        ∀ r, lookupUser st' other = some r → "u" ∉ r.friends) ∧
      (∀ other, other ≠ "u" → other ∈ c4Rec.friendRequestsSent →
        ∀ r, lookupUser st' other = some r → "u" ∉ r.friendRequestsReceived) ∧
      (∀ other, other ≠ "u" → other ∈ c4Rec.friendRequestsReceived →
        ∀ r, lookupUser st' other = some r → "u" ∉ r.friendRequestsSent) ∧
      (∀ other, other ≠ "u" →
        (lookupUser st' other).map (fun r => r.blockedUsers) =
          (lookupUser c4Store other).map (fun r => r.blockedUsers))) :=
  ⟨⟨by decide, rfl⟩, deleteUser_cleanup c4Store "u" c4Rec (by decide) rfl⟩

/-- Inversion of one leaderboard loop step: an included entry passed the
visibility guard and carries the participant's recorded score. -/
theorem leaderboardEntryFor_inv (st : Store) (userId gameId p : String)
    (e : LeaderboardEntry) (h : leaderboardEntryFor st userId gameId p = some e) :
    visibilityAllows st userId p "game_scores" = true ∧
    e.id = p ∧ scoreOf st p gameId = some e.score := by
  unfold leaderboardEntryFor at h
  split at h
  case isTrue hvis =>
    split at h
    case h_1 s hsc =>
      obtain rfl := Option.some.inj h
      exact ⟨hvis, rfl, hsc⟩
    case h_2 hsc => simp at h
  case isFalse hvis => simp at h

/-- C6 (confirmed): a successful `getFriendsLeaderboard` is sorted by score
descending; every entry's owner either is the requesting user itself or
passes the `game_scores` visibility guard with respect to the requester, and
every entry's owner has a recorded score for the game (participants failing
the guard or lacking a score are excluded); and the user itself, when it has
a recorded score, is always included no matter its own visibility level. -/
theorem getFriendsLeaderboard_sound (st : Store) (userId gameId : String)
    (entries : List LeaderboardEntry)
    (h : getFriendsLeaderboard st userId gameId = .ok entries) :
    entries.Pairwise (fun a b => b.score ≤ a.score) ∧
    (∀ e ∈ entries, (e.id = userId ∨ visibilityAllows st userId e.id "game_scores" = true) ∧
      ∃ s, scoreOf st e.id gameId = some s ∧ e.score = s) ∧
    (∀ s, scoreOf st userId gameId = some s →
      ∃ e ∈ entries, e.id = userId ∧ e.score = s) := by
  by_cases h0 : userId = "" ∨ gameId = ""
  · simp [getFriendsLeaderboard, h0] at h
  · cases hu : lookupUser st userId with
    | none => simp [getFriendsLeaderboard, h0, hu] at h
    | some u =>
      simp [getFriendsLeaderboard, h0, hu] at h
      subst h
      refine ⟨pairwise_sortByScoreDesc _, ?_, ?_⟩
      · intro e he
        rw [mem_sortByScoreDesc] at he
        obtain ⟨p, hp, hpe⟩ := List.mem_filterMap.mp he
        obtain ⟨hvis, hid, hsc⟩ := leaderboardEntryFor_inv st userId gameId p e hpe
        subst hid
        exact ⟨Or.inr hvis, e.score, hsc, rfl⟩
      · intro s hs
        have hpart : userId ∈ dedupFirst (u.friends ++ [userId]) := by
          rw [mem_dedupFirst]
          simp
        have hallow : visibilityAllows st userId userId "game_scores" = true := by
          simp [visibilityAllows]
        have hent : leaderboardEntryFor st userId gameId userId =
            some { id := userId, pseudo := (getUserPseudo st userId).getD "Inconnu",
                   score := s } := by
          simp [leaderboardEntryFor, hallow, hs]
        refine ⟨{ id := userId, pseudo := (getUserPseudo st userId).getD "Inconnu", score := s }, ?_, rfl, rfl⟩
        rw [mem_sortByScoreDesc]
        exact List.mem_filterMap.mpr ⟨userId, hpart, hent⟩

/-- C6 witness: the leaderboard soundness theorem evaluated on `c6Store` for
user `u` and game `g`, whose result is `c6Entries`. -/
theorem getFriendsLeaderboard_sound_witness :
    getFriendsLeaderboard c6Store "u" "g" = .ok c6Entries ∧
    (c6Entries.Pairwise (fun a b => b.score ≤ a.score) ∧
      (∀ e ∈ c6Entries,
        (e.id = "u" ∨ visibilityAllows c6Store "u" e.id "game_scores" = true) ∧
        ∃ s, scoreOf c6Store e.id "g" = some s ∧ e.score = s) ∧
      (∀ s, scoreOf c6Store "u" "g" = some s →
        ∃ e ∈ c6Entries, e.id = "u" ∧ e.score = s)) :=
  ⟨rfl, getFriendsLeaderboard_sound c6Store "u" "g" c6Entries rfl⟩

/-- C7 (confirmed): a successful suggestion list for an existing user
contains exactly the ids reachable as a friend of one of the user's friends
that are neither the user itself nor one of its direct friends and whose
record still resolves to a pseudo; in particular it never contains the user
or a direct friend, and unresolvable ids are dropped. -/
theorem suggestions_characterization (st : Store) (userId : String) (u : UserRecord)
    (suggs : List (String × String))
    (hu : lookupUser st userId = some u)
    (h : getFriendsOfFriendsSuggestions st userId = .ok suggs) :
    (∀ p ∈ suggs, p.1 ≠ userId ∧ p.1 ∉ u.friends ∧
      (∃ f ∈ u.friends, p.1 ∈ friendsOf st f) ∧ getUserPseudo st p.1 = some p.2) ∧
    (∀ x ps, (∃ f ∈ u.friends, x ∈ friendsOf st f) → x ∉ u.friends → x ≠ userId →
      getUserPseudo st x = some ps → (x, ps) ∈ suggs) := by
  by_cases h0 : userId = ""
  · simp [getFriendsOfFriendsSuggestions, h0] at h
  · simp only [getFriendsOfFriendsSuggestions] at h
    rw [if_neg h0, hu] at h
    simp only [Except.ok.injEq] at h
    subst h
    constructor
    · rintro ⟨x, ps⟩ hp
      obtain ⟨id, hid, hmap⟩ := List.mem_filterMap.mp hp
      cases hps : getUserPseudo st id with
      | none => rw [hps] at hmap; simp at hmap
      | some q =>
        rw [hps] at hmap
        simp only [Option.map_some', Option.some.injEq, Prod.mk.injEq] at hmap
        obtain ⟨rfl, rfl⟩ := hmap
        rw [mem_dedupFirst, List.mem_filter] at hid
        obtain ⟨hid1, hid2⟩ := hid
        rw [mem_friendsOfAll] at hid1
        simp only [decide_eq_true_eq] at hid2
        exact ⟨hid2.1, hid2.2, hid1, hps⟩
    · intro x ps hex hnf hnu hps
      refine List.mem_filterMap.mpr ⟨x, ?_, by rw [hps]; rfl⟩
      rw [mem_dedupFirst, List.mem_filter]
      refine ⟨(mem_friendsOfAll st u.friends x).mpr hex, ?_⟩
      simp [hnu, hnf]

/-- C7 witness: the suggestion characterization evaluated on `c7Store` for
user `u`: the result is exactly `[("x", "X")]` — it omits `u` itself, the
direct friends `f` and `f2`, and the vanished id `ghost`. -/
theorem suggestions_characterization_witness :
    (lookupUser c7Store "u" = some c7Rec ∧
      getFriendsOfFriendsSuggestions c7Store "u" = .ok [("x", "X")]) ∧
    ((∀ p ∈ [(("x" : String), ("X" : String))], p.1 ≠ "u" ∧ p.1 ∉ c7Rec.friends ∧
      (∃ f ∈ c7Rec.friends, p.1 ∈ friendsOf c7Store f) ∧
      getUserPseudo c7Store p.1 = some p.2) ∧
    (∀ x ps, (∃ f ∈ c7Rec.friends, x ∈ friendsOf c7Store f) → x ∉ c7Rec.friends →
      x ≠ "u" → getUserPseudo c7Store x = some ps →
      (x, ps) ∈ [(("x" : String), ("X" : String))])) :=
  ⟨⟨rfl, rfl⟩, suggestions_characterization c7Store "u" c7Rec [("x", "X")] rfl rfl⟩

/-- C8 witness: the default-visibility theorem evaluated at a concrete
pseudo, invite code and timestamp. -/
theorem createUser_default_visibility_witness :
    assocLookup (createUserRecord "Ada" "XY12AB34" 5).visibility "friend_list" = some "friends_only" ∧
    assocLookup (createUserRecord "Ada" "XY12AB34" 5).visibility "shared_projects" = some "friends_only" ∧
    assocLookup (createUserRecord "Ada" "XY12AB34" 5).visibility "last_seen" = some "friends_only" ∧
    assocLookup (createUserRecord "Ada" "XY12AB34" 5).visibility "game_scores" = some "everyone" ∧
    assocLookup (createUserRecord "Ada" "XY12AB34" 5).visibility "online_status" = some "everyone" ∧
    assocLookup (createUserRecord "Ada" "XY12AB34" 5).visibility "profile_bio" = some "everyone" ∧
    assocLookup (createUserRecord "Ada" "XY12AB34" 5).visibility "custom_status" = some "everyone" :=
  createUser_default_visibility "Ada" "XY12AB34" 5
